import Mathlib

/-!
Verification of the book-CRUD HTTP service (`src/index.ts`).

The route handlers are embedded shallowly: a parsed JSON request body is a
record of optional `JsonVal` fields, each handler is a pure function from the
body and the current store state to an HTTP response, the next store state, and
the list of persistence-gateway operations it invoked.  The persistence gateway
(Prisma, outside this repository) is modelled from the spec's gateway contract.
-/

/-- Values occurring in a parsed JSON request body. -/
inductive JsonVal where
  | str (s : String)
  | num (q : ℚ)
  | boolean (b : Bool)
  | null
deriving DecidableEq

/-- JavaScript truthiness of a value, as used by `!title` and by the
`...(title && ...)` spread. An empty string, the number 0, `false` and
`null` are falsy. -/
def JsonVal.truthy : JsonVal → Bool
  | .str s => s != ""
  | .num q => q != 0
  | .boolean b => b
  | .null => false

/-- Models `typeof v === 'string'`. -/
def JsonVal.isStr : JsonVal → Bool
  | .str _ => true
  | _ => false

/-- Models JavaScript `String.prototype.trim`: remove leading and trailing
whitespace characters (the ASCII whitespace set of `Char.isWhitespace`
approximates the JS whitespace set). -/
def jsTrimStr (s : String) : String :=
  ⟨(((s.data.dropWhile Char.isWhitespace).reverse.dropWhile Char.isWhitespace).reverse)⟩

/-- Value of a list of decimal digit characters. -/
def digitsToNat (l : List Char) : Nat :=
  l.foldl (fun acc c => acc * 10 + (c.toNat - 48)) 0

/-- Models JavaScript `Number(s)` on an `id` path segment, restricted to plain
decimal literals (optional sign, digits, optional fraction); whitespace-only
strings convert to 0 and anything else to NaN, encoded as `none`. -/
def jsToNumber (s : String) : Option ℚ :=
  let t := (s.data.dropWhile Char.isWhitespace).reverse.dropWhile Char.isWhitespace |>.reverse
  if t = [] then some 0 else
  let rest := match t with
    | '-' :: cs => cs
    | '+' :: cs => cs
    | cs => cs
  let neg : Bool := match t with
    | '-' :: _ => true
    | _ => false
  let intPart := rest.takeWhile Char.isDigit
  match rest.dropWhile Char.isDigit with
  | [] =>
    if intPart = [] then none
    else some (if neg then -(digitsToNat intPart : ℚ) else (digitsToNat intPart : ℚ))
  | '.' :: frac =>
    if frac.all Char.isDigit && (intPart ≠ [] || frac ≠ []) then
      let v : ℚ :=
        mkRat (digitsToNat intPart * 10 ^ frac.length + digitsToNat frac)
          (10 ^ frac.length)
      some (if neg then -v else v)
    else none
  | _ => none

/-- A stored book row: `id` is assigned by the store; `published` is a JS
number, carried as a rational. -/
structure Book where
  id : Int
  title : String
  author : String
  published : ℚ
deriving DecidableEq

/-- The relational store: the book table plus the autoincrement counter. -/
structure Store where
  books : List Book
  nextId : Int
deriving DecidableEq

/-- Partial record forwarded to the gateway's update operation. -/
structure UpdateData where
  title : Option String
  author : Option String
  published : Option ℚ
deriving DecidableEq

/-- Trace of persistence-gateway operations a handler performs. A lookup key is
`Option ℚ` because `Number(id)` can be NaN (`none`). -/
inductive GatewayOp where
  | createOp (title author : String) (published : ℚ)
  | findManyOp
  | findUniqueOp (key : Option ℚ)
  | updateOp (key : Option ℚ) (d : UpdateData)
  | deleteOp (key : Option ℚ)
deriving DecidableEq

/-- Body of an HTTP response: a single JSON record, an array of records, an
error object, or an empty body. -/
inductive RespBody where
  | record (b : Book)
  | records (bs : List Book)
  | errMsg (s : String)
  | empty
deriving DecidableEq

/-- An HTTP response: status code and body. -/
structure HttpResponse where
  status : Nat
  body : RespBody
deriving DecidableEq

/-- Modelled from the spec: the gateway's `create` persists the record and
assigns and returns a fresh integer `id` (Prisma autoincrement, outside src). -/
def Store.createBook (st : Store) (title author : String) (published : ℚ) :
    Book × Store :=
  let b : Book := ⟨st.nextId, title, author, published⟩
  (b, ⟨st.books ++ [b], st.nextId + 1⟩)

/-- Modelled from the spec: the gateway's `findById` returns an absent-marker
(not an error) when no row matches; a NaN key (`none`) matches no row. -/
def Store.findById (st : Store) (key : Option ℚ) : Option Book :=
  match key with
  | none => none
  | some q => st.books.find? (fun b => decide ((b.id : ℚ) = q))

/-- Modelled from the spec: applying a partial update record to a stored row
keeps every absent field and overwrites every present one. -/
def mergeBook (b : Book) (d : UpdateData) : Book :=
  ⟨b.id, d.title.getD b.title, d.author.getD b.author, d.published.getD b.published⟩

/-- Modelled from the spec: the gateway's `update` applies the partial record to
the matching row and raises a gateway-level failure when the target id does not
exist. -/
def Store.updateBook (st : Store) (key : Option ℚ) (d : UpdateData) :
    Except Unit (Book × Store) :=
  match st.findById key with
  | none => .error ()
  | some b =>
    .ok (mergeBook b d,
      ⟨st.books.map (fun x => if x.id = b.id then mergeBook b d else x), st.nextId⟩)

/-- Modelled from the spec: the gateway's `deleteById` removes the matching row
and raises a gateway-level failure when the target id does not exist. -/
def Store.deleteById (st : Store) (key : Option ℚ) : Except Unit Store :=
  match st.findById key with
  | none => .error ()
  | some b => .ok ⟨st.books.filter (fun x => x.id ≠ b.id), st.nextId⟩

/-- The initial store: empty table, autoincrement counter at 1. -/
def Store.init : Store := ⟨[], 1⟩

/-- A parsed request body: each of the three fields is present (`some`) or
absent (`none`). -/
structure ReqBody where
  title : Option JsonVal
  author : Option JsonVal
  published : Option JsonVal
deriving DecidableEq

/-- The create-path check
`!title || typeof title !== 'string' || title.trim().length === 0`
(src/index.ts lines 41 and 45); an absent field is `undefined`, which is falsy. -/
def invalidCreateString (t : Option JsonVal) : Bool :=
  match t with
  | none => true
  | some v =>
    !v.truthy || !v.isStr ||
      (match v with
       | .str s => (jsTrimStr s).length == 0
       | _ => false)

/-- The create-path check `published === undefined || !Number.isInteger(published)`
(src/index.ts line 49): `Number.isInteger` is true exactly on integral numbers. -/
def invalidCreatePublished (p : Option JsonVal) : Bool :=
  match p with
  | none => true
  | some (.num q) => !(q.den == 1)
  | some _ => true

/-- Models `title.trim()` applied to a field the validation has established to
be a string (other shapes are unreachable on the paths where this is called). -/
def jsTrimOpt : Option JsonVal → String
  | some (.str s) => jsTrimStr s
  | _ => ""

/-- Models reading the raw numeric value of a field the validation has
established to be a number. -/
def jsNumOpt : Option JsonVal → ℚ
  | some (.num q) => q
  | _ => 0

/-- The `POST /books` handler (src/index.ts lines 37–66): validate title, then
author, then published, failing fast with 400; on success persist the trimmed
strings and the raw published value via the gateway's create and respond 201
with the created record. -/
def postBooks (body : ReqBody) (st : Store) :
    HttpResponse × Store × List GatewayOp :=
  if invalidCreateString body.title then
    (⟨400, .errMsg "Title is required and must be a non-empty string"⟩, st, [])
  else if invalidCreateString body.author then
    (⟨400, .errMsg "Author is required and must be a non-empty string"⟩, st, [])
  else if invalidCreatePublished body.published then
    (⟨400, .errMsg "Published must be an integer value"⟩, st, [])
  else
    let t := jsTrimOpt body.title
    let a := jsTrimOpt body.author
    let p := jsNumOpt body.published
    let r := st.createBook t a p
    (⟨201, .record r.1⟩, r.2, [.createOp t a p])

/-- The `GET /books` handler (src/index.ts lines 68–75) under a non-failing
gateway: 200 with every stored book. -/
def getBooksList (st : Store) : HttpResponse × List GatewayOp :=
  (⟨200, .records st.books⟩, [.findManyOp])

/-- The response stage of `GET /books/:id` (src/index.ts lines 79–90): 500 with
the generic message when the gateway raised, 200 with the record when found,
404 "Book not found" when absent. -/
def getBookRespond (result : Except Unit (Option Book)) : HttpResponse :=
  match result with
  | .error _ => ⟨500, .errMsg "Failed to fetch book"⟩
  | .ok (some b) => ⟨200, .record b⟩
  | .ok none => ⟨404, .errMsg "Book not found"⟩

/-- The `GET /books/:id` handler (src/index.ts lines 77–91) under a reachable
store: convert the path segment with `Number`, look up via the gateway, and
respond. -/
def getBooksId (idSeg : String) (st : Store) : HttpResponse × List GatewayOp :=
  let key := jsToNumber idSeg
  (getBookRespond (.ok (st.findById key)), [.findUniqueOp key])

/-- The update-path check
`title !== undefined && (typeof title !== 'string' || title.trim().length === 0)`
(src/index.ts lines 98 and 102): validation applies only to provided fields. -/
def invalidUpdateString (t : Option JsonVal) : Bool :=
  match t with
  | none => false
  | some v =>
    !v.isStr ||
      (match v with
       | .str s => (jsTrimStr s).length == 0
       | _ => false)

/-- The update-path check `published !== undefined && !Number.isInteger(published)`
(src/index.ts line 106). -/
def invalidUpdatePublished (p : Option JsonVal) : Bool :=
  match p with
  | none => false
  | some (.num q) => !(q.den == 1)
  | some _ => true

/-- Models the spread `...(title && { title: title.trim() })` at src/index.ts
lines 114–115: the trimmed string is included only when the provided value is
truthy; an absent field (`undefined`) is falsy, hence omitted. -/
def spreadTrimmed (t : Option JsonVal) : Option String :=
  match t with
  | some v => if v.truthy then some (jsTrimOpt (some v)) else none
  | none => none

/-- Models the spread `...(published !== undefined && { published })` at
src/index.ts line 116: the raw value is included whenever the field is present,
regardless of truthiness. -/
def spreadPresent (p : Option JsonVal) : Option ℚ :=
  match p with
  | some v => some (jsNumOpt (some v))
  | none => none

/-- The update payload built at src/index.ts lines 113–117. -/
def updatePayload (body : ReqBody) : UpdateData :=
  ⟨spreadTrimmed body.title, spreadTrimmed body.author,
   spreadPresent body.published⟩

/-- The `PUT /books/:id` handler (src/index.ts lines 93–123): validate each
provided field, failing fast with 400; on success forward the payload to the
gateway's update, responding 200 with the updated record, or 500 with the
generic message when the gateway raises. -/
def putBooksId (idSeg : String) (body : ReqBody) (st : Store) :
    HttpResponse × Store × List GatewayOp :=
  if invalidUpdateString body.title then
    (⟨400, .errMsg "Title must be a non-empty string"⟩, st, [])
  else if invalidUpdateString body.author then
    (⟨400, .errMsg "Author must be a non-empty string"⟩, st, [])
  else if invalidUpdatePublished body.published then
    (⟨400, .errMsg "Published must be an integer value"⟩, st, [])
  else
    let key := jsToNumber idSeg
    let d := updatePayload body
    match st.updateBook key d with
    | .ok r => (⟨200, .record r.1⟩, r.2, [.updateOp key d])
    | .error _ => (⟨500, .errMsg "Failed to update book"⟩, st, [.updateOp key d])

/-- The `DELETE /books/:id` handler (src/index.ts lines 125–135): delete via the
gateway and respond 204 with an empty body, or 500 with the fixed message
"Failed to delete book" when the gateway raises. -/
def deleteBooksId (idSeg : String) (st : Store) :
    HttpResponse × Store × List GatewayOp :=
  let key := jsToNumber idSeg
  match st.deleteById key with
  | .ok st2 => (⟨204, .empty⟩, st2, [.deleteOp key])
  | .error _ => (⟨500, .errMsg "Failed to delete book"⟩, st, [.deleteOp key])

/-- From the spec's words: a create-path `title`/`author` is bad when it is
missing, not a string, or empty after trimming. -/
def specCreateStringBad (t : Option JsonVal) : Bool :=
  match t with
  | none => true
  | some (.str s) => jsTrimStr s == ""
  | some _ => true

/-- From the spec's words: a create-path `published` is bad when it is absent or
not a mathematical integer. -/
def specPublishedBad (p : Option JsonVal) : Bool :=
  match p with
  | some (.num q) => !(q.den == 1)
  | _ => true

/-- The data-model invariant on a stored book: `title` and `author` are
non-empty and not whitespace-only, and `published` is a mathematical integer. -/
def Book.wf (b : Book) : Prop :=
  b.title ≠ "" ∧ (∃ c ∈ b.title.data, ¬c.isWhitespace) ∧
  b.author ≠ "" ∧ (∃ c ∈ b.author.data, ¬c.isWhitespace) ∧
  b.published.den = 1

instance (b : Book) : Decidable b.wf := by
  unfold Book.wf; infer_instance

/-- The invariant on the whole store: every stored book is well-formed. -/
def Store.wf (st : Store) : Prop :=
  ∀ b ∈ st.books, b.wf

instance (st : Store) : Decidable st.wf := by
  unfold Store.wf; exact List.decidableBAll _ _

/-- A concrete store used to instantiate theorems: the spec's Dune example,
already created, so the autoincrement counter stands at 2. -/
def exampleStore : Store := ⟨[⟨1, "Dune", "Frank Herbert", 1965⟩], 2⟩

/-- Auxiliary: a string is empty exactly when its length is zero. -/
theorem string_length_eq_zero_iff (s : String) : s.length = 0 ↔ s = "" := by
cases s with
| mk l => cases l <;> simp [String.length, String.ext_iff]

/-- Auxiliary: trimming the empty string gives the empty string. -/
theorem jsTrimStr_empty : jsTrimStr "" = "" := rfl

/-- Auxiliary: a string whose trim is non-empty is itself non-empty. -/
theorem ne_empty_of_jsTrimStr_ne_empty (s : String) (h : jsTrimStr s ≠ "") :
    s ≠ "" := by
intro he
rw [he] at h
exact h jsTrimStr_empty

/-- Auxiliary: a non-empty trimmed string contains a non-whitespace character. -/
theorem jsTrimStr_has_nonws (s : String) (h : jsTrimStr s ≠ "") :
    ∃ c ∈ (jsTrimStr s).data, ¬c.isWhitespace := by
have hdata : (jsTrimStr s).data =
    ((s.data.dropWhile Char.isWhitespace).reverse.dropWhile Char.isWhitespace).reverse := rfl
have hne : (s.data.dropWhile Char.isWhitespace).reverse.dropWhile Char.isWhitespace ≠ [] := by
  intro hnil
  apply h
  rw [String.ext_iff, hdata, hnil]
  rfl
refine ⟨((s.data.dropWhile Char.isWhitespace).reverse.dropWhile Char.isWhitespace).head hne,
  ?_, ?_⟩
· rw [hdata, List.mem_reverse]
  exact List.head_mem hne
· have hws := List.head_dropWhile_not Char.isWhitespace
    (s.data.dropWhile Char.isWhitespace).reverse hne
  simp [hws]

/-- Auxiliary: the create-path string check computes exactly the spec's
"missing, non-string, or empty after trim" predicate. -/
theorem invalidCreateString_eq_spec (t : Option JsonVal) :
    invalidCreateString t = specCreateStringBad t := by
match t with
| none => rfl
| some (.num q) => simp [invalidCreateString, specCreateStringBad, JsonVal.isStr]
| some (.boolean b) => cases b <;> rfl
| some .null => rfl
| some (.str s) =>
  rw [Bool.eq_iff_iff]
  by_cases he : s = ""
  · rw [he]
    simp [invalidCreateString, specCreateStringBad, JsonVal.truthy, JsonVal.isStr,
      jsTrimStr_empty, string_length_eq_zero_iff]
  · by_cases ht : jsTrimStr s = ""
    · simp [invalidCreateString, specCreateStringBad, JsonVal.truthy, JsonVal.isStr, he, ht,
        string_length_eq_zero_iff]
    · simp [invalidCreateString, specCreateStringBad, JsonVal.truthy, JsonVal.isStr, he, ht,
        string_length_eq_zero_iff]

/-- Auxiliary: the create-path published check computes exactly the spec's
"absent or not a mathematical integer" predicate. -/
theorem invalidCreatePublished_eq_spec (p : Option JsonVal) :
    invalidCreatePublished p = specPublishedBad p := by
match p with
| none => rfl
| some (.num q) => rfl
| some (.str s) => rfl
| some (.boolean b) => rfl
| some .null => rfl

/-- Auxiliary: a field passing the create-path string check is a string with
non-empty trim. -/
theorem invalidCreateString_eq_false_elim (t : Option JsonVal)
    (h : invalidCreateString t = false) :
    ∃ s, t = some (.str s) ∧ jsTrimStr s ≠ "" := by
match t with
| none => exact absurd h (by simp [invalidCreateString])
| some (.num q) => exact absurd h (by simp [invalidCreateString, JsonVal.isStr])
| some (.boolean b) => exact absurd h (by cases b <;> simp [invalidCreateString, JsonVal.isStr, JsonVal.truthy])
| some .null => exact absurd h (by simp [invalidCreateString, JsonVal.isStr, JsonVal.truthy])
| some (.str s) =>
  refine ⟨s, rfl, ?_⟩
  rw [invalidCreateString_eq_spec] at h
  simp only [specCreateStringBad, beq_eq_false_iff_ne, ne_eq] at h
  exact h

/-- Auxiliary: a field passing the create-path published check is an integral
number. -/
theorem invalidCreatePublished_eq_false_elim (p : Option JsonVal)
    (h : invalidCreatePublished p = false) :
    ∃ q : ℚ, p = some (.num q) ∧ q.den = 1 := by
match p with
| none => exact absurd h (by simp [invalidCreatePublished])
| some (.str s) => exact absurd h (by simp [invalidCreatePublished])
| some (.boolean b) => exact absurd h (by simp [invalidCreatePublished])
| some .null => exact absurd h (by simp [invalidCreatePublished])
| some (.num q) =>
  refine ⟨q, rfl, ?_⟩
  simp only [invalidCreatePublished, Bool.not_eq_false', beq_iff_eq] at h
  exact h

/-- Auxiliary: a provided field passing the update-path string check is a string
with non-empty trim. -/
theorem invalidUpdateString_eq_false_elim (t : Option JsonVal)
    (h : invalidUpdateString t = false) :
    t = none ∨ ∃ s, t = some (.str s) ∧ jsTrimStr s ≠ "" := by
match t with
| none => exact Or.inl rfl
| some (.num q) => exact absurd h (by simp [invalidUpdateString, JsonVal.isStr])
| some (.boolean b) => exact absurd h (by simp [invalidUpdateString, JsonVal.isStr])
| some .null => exact absurd h (by simp [invalidUpdateString, JsonVal.isStr])
| some (.str s) =>
  refine Or.inr ⟨s, rfl, ?_⟩
  simp only [invalidUpdateString, JsonVal.isStr, Bool.not_true, Bool.false_or,
    beq_eq_false_iff_ne, ne_eq, string_length_eq_zero_iff] at h
  exact h

/-- Auxiliary: a provided field passing the update-path published check is an
integral number. -/
theorem invalidUpdatePublished_eq_false_elim (p : Option JsonVal)
    (h : invalidUpdatePublished p = false) :
    p = none ∨ ∃ q : ℚ, p = some (.num q) ∧ q.den = 1 := by
match p with
| none => exact Or.inl rfl
| some (.str s) => exact absurd h (by simp [invalidUpdatePublished])
| some (.boolean b) => exact absurd h (by simp [invalidUpdatePublished])
| some .null => exact absurd h (by simp [invalidUpdatePublished])
| some (.num q) =>
  refine Or.inr ⟨q, rfl, ?_⟩
  simp only [invalidUpdatePublished, Bool.not_eq_false', beq_iff_eq] at h
  exact h

/-- Auxiliary: a successful lookup returns a member of the book table. -/
theorem findById_mem (st : Store) (key : Option ℚ) (b : Book)
    (h : st.findById key = some b) : b ∈ st.books := by
match key with
| none => exact absurd h (by simp [Store.findById])
| some q => exact List.mem_of_find?_eq_some h

/-- Auxiliary: a successful lookup pins the key to the found book's id. -/
theorem findById_key (st : Store) (key : Option ℚ) (b : Book)
    (h : st.findById key = some b) : key = some ((b.id : ℚ)) := by
match key with
| none => exact absurd h (by simp [Store.findById])
| some q =>
  have hp := List.find?_some h
  rw [decide_eq_true_eq] at hp
  rw [hp]

/-- Auxiliary: under update validation the forwarded title/author entry is
either absent or a non-empty trimmed string. -/
theorem spreadTrimmed_of_valid (t : Option JsonVal)
    (h : invalidUpdateString t = false) :
    spreadTrimmed t = none ∨
      ∃ s, spreadTrimmed t = some (jsTrimStr s) ∧ jsTrimStr s ≠ "" := by
rcases invalidUpdateString_eq_false_elim t h with hn | ⟨s, hs, hne⟩
· left
  rw [hn]
  rfl
· right
  refine ⟨s, ?_, hne⟩
  rw [hs]
  have hsne : s ≠ "" := ne_empty_of_jsTrimStr_ne_empty s hne
  simp [spreadTrimmed, JsonVal.truthy, hsne, jsTrimOpt]

/-- Auxiliary: under update validation the forwarded published entry is either
absent or an integral number. -/
theorem spreadPresent_of_valid (p : Option JsonVal)
    (h : invalidUpdatePublished p = false) :
    spreadPresent p = none ∨ ∃ q : ℚ, spreadPresent p = some q ∧ q.den = 1 := by
rcases invalidUpdatePublished_eq_false_elim p h with hn | ⟨q, hq, hden⟩
· left
  rw [hn]
  rfl
· right
  refine ⟨q, ?_, hden⟩
  rw [hq]
  rfl

/-- Auxiliary: merging a validated update payload into a well-formed book gives
a well-formed book. -/
theorem mergeBook_wf (b : Book) (d : UpdateData) (hb : b.wf)
    (hdt : d.title = none ∨ ∃ s, d.title = some (jsTrimStr s) ∧ jsTrimStr s ≠ "")
    (hda : d.author = none ∨ ∃ s, d.author = some (jsTrimStr s) ∧ jsTrimStr s ≠ "")
    (hdp : d.published = none ∨ ∃ q : ℚ, d.published = some q ∧ q.den = 1) :
    (mergeBook b d).wf := by
obtain ⟨h1, h2, h3, h4, h5⟩ := hb
refine ⟨?_, ?_, ?_, ?_, ?_⟩
· rcases hdt with hn | ⟨s, hs, hne⟩
  · simpa [mergeBook, hn] using h1
  · simpa [mergeBook, hs] using hne
· rcases hdt with hn | ⟨s, hs, hne⟩
  · simpa [mergeBook, hn] using h2
  · have := jsTrimStr_has_nonws s hne
    simpa [mergeBook, hs] using this
· rcases hda with hn | ⟨s, hs, hne⟩
  · simpa [mergeBook, hn] using h3
  · simpa [mergeBook, hs] using hne
· rcases hda with hn | ⟨s, hs, hne⟩
  · simpa [mergeBook, hn] using h4
  · have := jsTrimStr_has_nonws s hne
    simpa [mergeBook, hs] using this
· rcases hdp with hn | ⟨q, hq, hden⟩
  · simpa [mergeBook, hn] using h5
  · simpa [mergeBook, hq] using hden

/-- C1: For every request body in which title and author are strings with
non-empty content after trimming and published is a mathematical integer, the
create operation (POST /books) responds 201 with the created record containing
the trimmed title, the trimmed author, the given published value unchanged, and
the store-assigned integer id. -/
theorem createValidResponds201 (st : Store) (t a : String) (p : ℚ)
    (ht : jsTrimStr t ≠ "") (ha : jsTrimStr a ≠ "") (hp : p.den = 1) :
    postBooks ⟨some (.str t), some (.str a), some (.num p)⟩ st =
      (⟨201, .record ⟨st.nextId, jsTrimStr t, jsTrimStr a, p⟩⟩,
       ⟨st.books ++ [⟨st.nextId, jsTrimStr t, jsTrimStr a, p⟩], st.nextId + 1⟩,
       [.createOp (jsTrimStr t) (jsTrimStr a) p]) := by
have hvt : invalidCreateString (some (.str t)) = false := by
  rw [invalidCreateString_eq_spec]
  simp [specCreateStringBad, ht]
have hva : invalidCreateString (some (.str a)) = false := by
  rw [invalidCreateString_eq_spec]
  simp [specCreateStringBad, ha]
have hvp : invalidCreatePublished (some (.num p)) = false := by
  simp [invalidCreatePublished, hp]
simp [postBooks, hvt, hva, hvp, Store.createBook, jsTrimOpt, jsNumOpt]

/-- C1 witness: the spec's concrete Dune scenario on the initial store. -/
theorem createValidResponds201_witness :
    jsTrimStr " Dune " ≠ "" ∧ jsTrimStr "Frank Herbert" ≠ "" ∧ (1965 : ℚ).den = 1 ∧
    postBooks ⟨some (.str " Dune "), some (.str "Frank Herbert"), some (.num 1965)⟩
        Store.init =
      (⟨201, .record ⟨1, "Dune", "Frank Herbert", 1965⟩⟩,
       ⟨[⟨1, "Dune", "Frank Herbert", 1965⟩], 2⟩,
       [.createOp "Dune" "Frank Herbert" 1965]) :=
⟨by decide, by decide, by decide,
  createValidResponds201 Store.init " Dune " "Frank Herbert" 1965
    (by decide) (by decide) (by decide)⟩

/-- C3: Create validates in the fixed order title, then author, then published,
failing fast on the first violation with the field-specific 400 message; a
title/author is bad when missing, non-string, or empty after trimming, and
published is bad when absent or not a mathematical integer. -/
theorem createValidationOrder (body : ReqBody) (st : Store) :
    (specCreateStringBad body.title = true →
      (postBooks body st).1 =
        ⟨400, .errMsg "Title is required and must be a non-empty string"⟩) ∧
    (specCreateStringBad body.title = false →
      specCreateStringBad body.author = true →
      (postBooks body st).1 =
        ⟨400, .errMsg "Author is required and must be a non-empty string"⟩) ∧
    (specCreateStringBad body.title = false →
      specCreateStringBad body.author = false →
      specPublishedBad body.published = true →
      (postBooks body st).1 =
        ⟨400, .errMsg "Published must be an integer value"⟩) := by
refine ⟨?_, ?_, ?_⟩
· intro h1
  simp [postBooks, invalidCreateString_eq_spec, h1]
· intro h1 h2
  simp [postBooks, invalidCreateString_eq_spec, h1, h2]
· intro h1 h2 h3
  simp [postBooks, invalidCreateString_eq_spec, invalidCreatePublished_eq_spec, h1, h2, h3]

/-- C3 witness: a missing title, a whitespace-only author, published = 3.5 and
published = "2020" each draw their field's 400 message. -/
theorem createValidationOrder_witness :
    (postBooks ⟨none, some (.str "A"), some (.num 2020)⟩ exampleStore).1 =
      ⟨400, .errMsg "Title is required and must be a non-empty string"⟩ ∧
    (postBooks ⟨some (.str "T"), some (.str "  "), some (.num 2020)⟩ exampleStore).1 =
      ⟨400, .errMsg "Author is required and must be a non-empty string"⟩ ∧
    (postBooks ⟨some (.str "T"), some (.str "A"),
        some (.num (Rat.mk' 7 2 (by decide) (by decide)))⟩ exampleStore).1 =
      ⟨400, .errMsg "Published must be an integer value"⟩ ∧
    (postBooks ⟨some (.str "T"), some (.str "A"), some (.str "2020")⟩ exampleStore).1 =
      ⟨400, .errMsg "Published must be an integer value"⟩ :=
⟨(createValidationOrder _ _).1 (by decide),
 (createValidationOrder _ _).2.1 (by decide) (by decide),
 (createValidationOrder _ _).2.2 (by decide) (by decide) (by decide),
 (createValidationOrder _ _).2.2 (by decide) (by decide) (by decide)⟩

/-- C4: A create request that fails validation with a 400 response leaves the
store unchanged and invokes no gateway operation. -/
theorem createValidationFailureNoEffect (body : ReqBody) (st : Store)
    (h : (postBooks body st).1.status = 400) :
    (postBooks body st).2.1 = st ∧ (postBooks body st).2.2 = [] := by
by_cases h1 : invalidCreateString body.title = true
· simp [postBooks, h1]
· rw [Bool.not_eq_true] at h1
  by_cases h2 : invalidCreateString body.author = true
  · simp [postBooks, h1, h2]
  · rw [Bool.not_eq_true] at h2
    by_cases h3 : invalidCreatePublished body.published = true
    · simp [postBooks, h1, h2, h3]
    · rw [Bool.not_eq_true] at h3
      exfalso
      simp [postBooks, h1, h2, h3] at h

/-- C4 witness: a fully absent body draws a 400 and has no effect. -/
theorem createValidationFailureNoEffect_witness :
    (postBooks ⟨none, none, none⟩ exampleStore).1.status = 400 ∧
    (postBooks ⟨none, none, none⟩ exampleStore).2.1 = exampleStore ∧
    (postBooks ⟨none, none, none⟩ exampleStore).2.2 = [] :=
⟨by decide, createValidationFailureNoEffect ⟨none, none, none⟩ exampleStore (by decide)⟩

/-- C7: A single-record read responds 200 with the record when the id is found,
404 "Book not found" when absent, and 500 with the generic message when the
gateway raises. -/
theorem readOneResponses (idSeg : String) (st : Store) :
    (∀ b : Book, st.findById (jsToNumber idSeg) = some b →
      getBooksId idSeg st = (⟨200, .record b⟩, [.findUniqueOp (jsToNumber idSeg)])) ∧
    (st.findById (jsToNumber idSeg) = none →
      getBooksId idSeg st =
        (⟨404, .errMsg "Book not found"⟩, [.findUniqueOp (jsToNumber idSeg)])) ∧
    getBookRespond (.error ()) = ⟨500, .errMsg "Failed to fetch book"⟩ := by
refine ⟨?_, ?_, rfl⟩
· intro b hb
  simp [getBooksId, getBookRespond, hb]
· intro hn
  simp [getBooksId, getBookRespond, hn]

/-- C7 witness: on the example store, id 1 is found and id 9 is not. -/
theorem readOneResponses_witness :
    getBooksId "1" exampleStore =
      (⟨200, .record ⟨1, "Dune", "Frank Herbert", 1965⟩⟩,
       [.findUniqueOp (jsToNumber "1")]) ∧
    getBooksId "9" exampleStore =
      (⟨404, .errMsg "Book not found"⟩, [.findUniqueOp (jsToNumber "9")]) :=
⟨(readOneResponses "1" exampleStore).1 ⟨1, "Dune", "Frank Herbert", 1965⟩ (by decide),
 (readOneResponses "9" exampleStore).2.1 (by decide)⟩

/-- C8: A non-numeric id path segment converts to NaN, the store treats the NaN
lookup as not-found, and the response is 404 — no explicit 400 for a malformed
id. -/
theorem nonNumericIdYields404 (idSeg : String) (st : Store)
    (h : jsToNumber idSeg = none) :
    st.findById none = none ∧
    getBooksId idSeg st = (⟨404, .errMsg "Book not found"⟩, [.findUniqueOp none]) := by
refine ⟨rfl, ?_⟩
simp [getBooksId, getBookRespond, h, Store.findById]

/-- C8 witness: the segment "abc" converts to NaN and draws a 404. -/
theorem nonNumericIdYields404_witness :
    jsToNumber "abc" = none ∧
    getBooksId "abc" exampleStore =
      (⟨404, .errMsg "Book not found"⟩, [.findUniqueOp none]) :=
⟨by decide, (nonNumericIdYields404 "abc" exampleStore (by decide)).2⟩

/-- C2: Every stored book has a non-empty, non-whitespace-only title and author
and an integral published value: the initial store satisfies the invariant and
the create and partial-update operations (and delete) preserve it, so it holds
in every reachable store state. -/
theorem storeInvariantPreserved (st : Store) (body : ReqBody) (idSeg : String)
    (h : st.wf) :
    Store.init.wf ∧ (postBooks body st).2.1.wf ∧
    (putBooksId idSeg body st).2.1.wf ∧ (deleteBooksId idSeg st).2.1.wf := by
refine ⟨?_, ?_, ?_, ?_⟩
· intro b hb
  simp [Store.init] at hb
· by_cases h1 : invalidCreateString body.title = true
  · simpa [postBooks, h1] using h
  · rw [Bool.not_eq_true] at h1
    by_cases h2 : invalidCreateString body.author = true
    · simpa [postBooks, h1, h2] using h
    · rw [Bool.not_eq_true] at h2
      by_cases h3 : invalidCreatePublished body.published = true
      · simpa [postBooks, h1, h2, h3] using h
      · rw [Bool.not_eq_true] at h3
        obtain ⟨s1, hbt, ht1⟩ := invalidCreateString_eq_false_elim _ h1
        obtain ⟨s2, hba, ht2⟩ := invalidCreateString_eq_false_elim _ h2
        obtain ⟨q, hbp, hqden⟩ := invalidCreatePublished_eq_false_elim _ h3
        rw [hbt] at h1
        rw [hba] at h2
        rw [hbp] at h3
        intro b hb
        simp only [postBooks, h1, h2, h3, Bool.false_eq_true, if_false,
          Store.createBook, hbt, hba, hbp, jsTrimOpt, jsNumOpt] at hb
        rw [List.mem_append] at hb
        rcases hb with hb | hb
        · exact h b hb
        · rw [List.mem_singleton] at hb
          rw [hb]
          exact ⟨ht1, jsTrimStr_has_nonws s1 ht1, ht2, jsTrimStr_has_nonws s2 ht2, hqden⟩
· by_cases h1 : invalidUpdateString body.title = true
  · simpa [putBooksId, h1] using h
  · rw [Bool.not_eq_true] at h1
    by_cases h2 : invalidUpdateString body.author = true
    · simpa [putBooksId, h1, h2] using h
    · rw [Bool.not_eq_true] at h2
      by_cases h3 : invalidUpdatePublished body.published = true
      · simpa [putBooksId, h1, h2, h3] using h
      · rw [Bool.not_eq_true] at h3
        cases hfind : st.findById (jsToNumber idSeg) with
        | none =>
          have hup : st.updateBook (jsToNumber idSeg) (updatePayload body) = .error () := by
            simp [Store.updateBook, hfind]
          simpa [putBooksId, h1, h2, h3, hup] using h
        | some b =>
          have hup : st.updateBook (jsToNumber idSeg) (updatePayload body) =
              .ok (mergeBook b (updatePayload body),
                ⟨st.books.map (fun x =>
                  if x.id = b.id then mergeBook b (updatePayload body) else x),
                 st.nextId⟩) := by
            simp [Store.updateBook, hfind]
          have hst2 : (putBooksId idSeg body st).2.1 =
              ⟨st.books.map (fun x =>
                if x.id = b.id then mergeBook b (updatePayload body) else x),
               st.nextId⟩ := by
            simp [putBooksId, h1, h2, h3, hup]
          rw [hst2]
          intro x hx
          rcases List.mem_map.1 hx with ⟨y, hy, hxy⟩
          by_cases hid : y.id = b.id
          · rw [if_pos hid] at hxy
            rw [← hxy]
            exact mergeBook_wf b (updatePayload body) (h b (findById_mem st _ b hfind))
              (spreadTrimmed_of_valid _ h1) (spreadTrimmed_of_valid _ h2)
              (spreadPresent_of_valid _ h3)
          · rw [if_neg hid] at hxy
            rw [← hxy]
            exact h y hy
· cases hfind : st.findById (jsToNumber idSeg) with
  | none =>
    have hdel : st.deleteById (jsToNumber idSeg) = .error () := by
      simp [Store.deleteById, hfind]
    simpa [deleteBooksId, hdel] using h
  | some b =>
    have hdel : st.deleteById (jsToNumber idSeg) =
        .ok ⟨st.books.filter (fun x => x.id ≠ b.id), st.nextId⟩ := by
      simp [Store.deleteById, hfind]
    have hst2 : (deleteBooksId idSeg st).2.1 =
        ⟨st.books.filter (fun x => x.id ≠ b.id), st.nextId⟩ := by
      simp [deleteBooksId, hdel]
    rw [hst2]
    intro x hx
    exact h x (List.mem_filter.1 hx).1

/-- C2 witness: the invariant holds on the example store and is preserved by a
concrete create, update and delete. -/
theorem storeInvariantPreserved_witness :
    exampleStore.wf ∧
    (Store.init.wf ∧
      (postBooks ⟨some (.str " T "), some (.str "A"), some (.num 2000)⟩
        exampleStore).2.1.wf ∧
      (putBooksId "1" ⟨some (.str " T "), some (.str "A"), some (.num 2000)⟩
        exampleStore).2.1.wf ∧
      (deleteBooksId "1" exampleStore).2.1.wf) :=
⟨by decide,
 storeInvariantPreserved exampleStore
   ⟨some (.str " T "), some (.str "A"), some (.num 2000)⟩ "1" (by decide)⟩

/-- C5: For a partial update whose provided fields pass validation and whose id
is found, exactly the built payload is forwarded to the gateway's update, every
absent field is absent from the payload and keeps its stored value, and a
provided author is stored trimmed. -/
theorem updateForwardsOnlyProvidedFields (idSeg : String) (body : ReqBody)
    (st : Store) (b : Book)
    (ht : invalidUpdateString body.title = false)
    (ha : invalidUpdateString body.author = false)
    (hp : invalidUpdatePublished body.published = false)
    (hfind : st.findById (jsToNumber idSeg) = some b) :
    putBooksId idSeg body st =
      (⟨200, .record (mergeBook b (updatePayload body))⟩,
       ⟨st.books.map (fun x =>
          if x.id = b.id then mergeBook b (updatePayload body) else x), st.nextId⟩,
       [.updateOp (jsToNumber idSeg) (updatePayload body)]) ∧
    (mergeBook b (updatePayload body)).id = b.id ∧
    (body.title = none → (updatePayload body).title = none ∧
      (mergeBook b (updatePayload body)).title = b.title) ∧
    (body.author = none → (updatePayload body).author = none ∧
      (mergeBook b (updatePayload body)).author = b.author) ∧
    (body.published = none → (updatePayload body).published = none ∧
      (mergeBook b (updatePayload body)).published = b.published) ∧
    (∀ s, body.author = some (.str s) →
      (updatePayload body).author = some (jsTrimStr s) ∧
      (mergeBook b (updatePayload body)).author = jsTrimStr s) := by
have hup : st.updateBook (jsToNumber idSeg) (updatePayload body) =
    .ok (mergeBook b (updatePayload body),
      ⟨st.books.map (fun x =>
        if x.id = b.id then mergeBook b (updatePayload body) else x), st.nextId⟩) := by
  simp [Store.updateBook, hfind]
refine ⟨?_, rfl, ?_, ?_, ?_, ?_⟩
· simp [putBooksId, ht, ha, hp, hup]
· intro hn
  constructor
  · simp [updatePayload, spreadTrimmed, hn]
  · simp [mergeBook, updatePayload, spreadTrimmed, hn]
· intro hn
  constructor
  · simp [updatePayload, spreadTrimmed, hn]
  · simp [mergeBook, updatePayload, spreadTrimmed, hn]
· intro hn
  constructor
  · simp [updatePayload, spreadPresent, hn]
  · simp [mergeBook, updatePayload, spreadPresent, hn]
· intro s hs
  rcases invalidUpdateString_eq_false_elim body.author ha with hn | ⟨s2, hs2, hne2⟩
  · rw [hn] at hs
    exact absurd hs (by simp)
  · rw [hs2] at hs
    have hss : s2 = s := JsonVal.str.inj (Option.some.inj hs)
    rw [hss] at hne2 hs2
    have hsne : s ≠ "" := ne_empty_of_jsTrimStr_ne_empty s hne2
    have hpay : (updatePayload body).author = some (jsTrimStr s) := by
      simp [updatePayload, spreadTrimmed, hs2, JsonVal.truthy, hsne, jsTrimOpt]
    exact ⟨hpay, by simp [mergeBook, hpay]⟩

/-- C5 witness: updating only the author on the example store changes the
author and leaves title and published unchanged. -/
theorem updateForwardsOnlyProvidedFields_witness :
    putBooksId "1" ⟨none, some (.str " New Author "), none⟩ exampleStore =
      (⟨200, .record (mergeBook ⟨1, "Dune", "Frank Herbert", 1965⟩
          (updatePayload ⟨none, some (.str " New Author "), none⟩))⟩,
       ⟨exampleStore.books.map (fun x =>
          if x.id = (1 : Int) then
            mergeBook ⟨1, "Dune", "Frank Herbert", 1965⟩
              (updatePayload ⟨none, some (.str " New Author "), none⟩)
          else x), exampleStore.nextId⟩,
       [.updateOp (jsToNumber "1")
          (updatePayload ⟨none, some (.str " New Author "), none⟩)]) ∧
    (mergeBook ⟨1, "Dune", "Frank Herbert", 1965⟩
      (updatePayload ⟨none, some (.str " New Author "), none⟩)).id = 1 ∧
    (mergeBook ⟨1, "Dune", "Frank Herbert", 1965⟩
      (updatePayload ⟨none, some (.str " New Author "), none⟩)).title = "Dune" ∧
    (mergeBook ⟨1, "Dune", "Frank Herbert", 1965⟩
      (updatePayload ⟨none, some (.str " New Author "), none⟩)).published = 1965 ∧
    (mergeBook ⟨1, "Dune", "Frank Herbert", 1965⟩
      (updatePayload ⟨none, some (.str " New Author "), none⟩)).author =
        jsTrimStr " New Author " := by
have happ := updateForwardsOnlyProvidedFields "1" ⟨none, some (.str " New Author "), none⟩
  exampleStore ⟨1, "Dune", "Frank Herbert", 1965⟩ (by decide) (by decide) (by decide) (by decide)
exact ⟨happ.1, happ.2.1, (happ.2.2.1 rfl).2, (happ.2.2.2.2.1 rfl).2,
  (happ.2.2.2.2.2 " New Author " rfl).2⟩

/-- C6 counterexample: a PUT providing title as the empty string is not
forwarded with the field omitted — it fails validation with 400 "Title must be
a non-empty string", the store is untouched and no gateway update is invoked. -/
theorem updateEmptyStringOmitted_counterexample :
    putBooksId "1" ⟨some (.str ""), none, none⟩ exampleStore =
      (⟨400, .errMsg "Title must be a non-empty string"⟩, exampleStore, []) ∧
    putBooksId "1" ⟨none, some (.str "  "), none⟩ exampleStore =
      (⟨400, .errMsg "Author must be a non-empty string"⟩, exampleStore, []) := by
constructor <;> rfl

/-- C6 (amended): a title or author provided as a string that is empty after
trimming is rejected by validation with the field's 400 message and never
reaches the forwarding stage; for bodies that pass validation the truthiness
test in the spread cannot drop a provided field, so a field is omitted from the
update payload exactly when it is absent from the request. -/
theorem updateEmptyStringRejected (idSeg : String) (body : ReqBody) (st : Store)
    (s : String) (hs : jsTrimStr s = "") :
    (body.title = some (.str s) →
      putBooksId idSeg body st =
        (⟨400, .errMsg "Title must be a non-empty string"⟩, st, [])) ∧
    (invalidUpdateString body.title = false → body.author = some (.str s) →
      putBooksId idSeg body st =
        (⟨400, .errMsg "Author must be a non-empty string"⟩, st, [])) ∧
    (invalidUpdateString body.title = false →
      invalidUpdateString body.author = false →
      (((updatePayload body).title = none ↔ body.title = none) ∧
       ((updatePayload body).author = none ↔ body.author = none))) := by
have hbad : ∀ t : Option JsonVal, t = some (.str s) → invalidUpdateString t = true := by
  intro t htv
  rw [htv]
  simp [invalidUpdateString, JsonVal.isStr, string_length_eq_zero_iff, hs]
refine ⟨?_, ?_, ?_⟩
· intro htv
  simp [putBooksId, hbad body.title htv]
· intro h1 hav
  simp [putBooksId, h1, hbad body.author hav]
· intro h1 h2
  constructor
  · rcases invalidUpdateString_eq_false_elim body.title h1 with hn | ⟨s2, hs2, hne2⟩
    · simp [updatePayload, spreadTrimmed, hn]
    · have hsne : s2 ≠ "" := ne_empty_of_jsTrimStr_ne_empty s2 hne2
      simp [updatePayload, spreadTrimmed, hs2, JsonVal.truthy, hsne, jsTrimOpt]
  · rcases invalidUpdateString_eq_false_elim body.author h2 with hn | ⟨s2, hs2, hne2⟩
    · simp [updatePayload, spreadTrimmed, hn]
    · have hsne : s2 ≠ "" := ne_empty_of_jsTrimStr_ne_empty s2 hne2
      simp [updatePayload, spreadTrimmed, hs2, JsonVal.truthy, hsne, jsTrimOpt]

/-- C6 witness: a whitespace-only title is rejected with 400, and a validated
body's payload omits exactly the absent fields. -/
theorem updateEmptyStringRejected_witness :
    jsTrimStr "  " = "" ∧
    (putBooksId "1" ⟨some (.str "  "), none, none⟩ exampleStore =
      (⟨400, .errMsg "Title must be a non-empty string"⟩, exampleStore, [])) :=
⟨by decide,
 (updateEmptyStringRejected "1" ⟨some (.str "  "), none, none⟩ exampleStore "  "
   (by decide)).1 rfl⟩

/-- C9: A delete whose gateway call succeeds responds 204 with an empty body
and a subsequent read of the same id responds 404; when the gateway raises —
in particular when no book with that id exists — the response is the fixed 500
"Failed to delete book" and the store is unchanged. -/
theorem deleteResponses (idSeg : String) (st : Store) :
    (∀ b : Book, st.findById (jsToNumber idSeg) = some b →
      (deleteBooksId idSeg st).1 = ⟨204, .empty⟩ ∧
      (getBooksId idSeg (deleteBooksId idSeg st).2.1).1 =
        ⟨404, .errMsg "Book not found"⟩) ∧
    (st.findById (jsToNumber idSeg) = none →
      deleteBooksId idSeg st =
        (⟨500, .errMsg "Failed to delete book"⟩, st,
         [.deleteOp (jsToNumber idSeg)])) := by
constructor
· intro b hb
  have hkey := findById_key st (jsToNumber idSeg) b hb
  have hdel : st.deleteById (jsToNumber idSeg) =
      .ok ⟨st.books.filter (fun x => x.id ≠ b.id), st.nextId⟩ := by
    simp [Store.deleteById, hb]
  have hfne : (st.books.filter (fun x => x.id ≠ b.id)).find?
      (fun x => decide ((x.id : ℚ) = ((b.id : Int) : ℚ))) = none := by
    apply List.find?_eq_none.2
    intro x hx
    have hxid : x.id ≠ b.id := by simpa using (List.mem_filter.1 hx).2
    simp only [decide_eq_true_eq]
    intro hcast
    exact hxid (by exact_mod_cast hcast)
  constructor
  · simp [deleteBooksId, hdel]
  · have hst2 : (deleteBooksId idSeg st).2.1 =
        ⟨st.books.filter (fun x => x.id ≠ b.id), st.nextId⟩ := by
      simp [deleteBooksId, hdel]
    rw [hst2]
    simp only [getBooksId, hkey, Store.findById]
    rw [hfne]
    rfl
· intro hn
  have hdel : st.deleteById (jsToNumber idSeg) = .error () := by
    simp [Store.deleteById, hn]
  simp [deleteBooksId, hdel]

/-- C9 witness: deleting id 1 on the example store gives 204 and a follow-up
read gives 404; deleting the non-existent id 7 gives the fixed 500. -/
theorem deleteResponses_witness :
    ((deleteBooksId "1" exampleStore).1 = ⟨204, .empty⟩ ∧
      (getBooksId "1" (deleteBooksId "1" exampleStore).2.1).1 =
        ⟨404, .errMsg "Book not found"⟩) ∧
    deleteBooksId "7" exampleStore =
      (⟨500, .errMsg "Failed to delete book"⟩, exampleStore,
       [.deleteOp (jsToNumber "7")]) :=
⟨(deleteResponses "1" exampleStore).1 ⟨1, "Dune", "Frank Herbert", 1965⟩ (by decide),
 (deleteResponses "7" exampleStore).2 (by decide)⟩

/-- C10: A partial update providing published = 0 passes validation and the
value is forwarded to the gateway update — the spread tests presence, not
truthiness — so the stored published field becomes 0. -/
theorem updatePublishedZeroForwarded (idSeg : String) (tOpt aOpt : Option JsonVal)
    (st : Store) (b : Book)
    (ht : invalidUpdateString tOpt = false)
    (ha : invalidUpdateString aOpt = false)
    (hfind : st.findById (jsToNumber idSeg) = some b) :
    invalidUpdatePublished (some (.num 0)) = false ∧
    (updatePayload ⟨tOpt, aOpt, some (.num 0)⟩).published = some 0 ∧
    (putBooksId idSeg ⟨tOpt, aOpt, some (.num 0)⟩ st).1 =
      ⟨200, .record (mergeBook b (updatePayload ⟨tOpt, aOpt, some (.num 0)⟩))⟩ ∧
    (mergeBook b (updatePayload ⟨tOpt, aOpt, some (.num 0)⟩)).published = 0 := by
have hvp : invalidUpdatePublished (some (.num 0)) = false := by decide
have hup : st.updateBook (jsToNumber idSeg)
    (updatePayload ⟨tOpt, aOpt, some (.num 0)⟩) =
    .ok (mergeBook b (updatePayload ⟨tOpt, aOpt, some (.num 0)⟩),
      ⟨st.books.map (fun x =>
        if x.id = b.id then mergeBook b (updatePayload ⟨tOpt, aOpt, some (.num 0)⟩)
        else x), st.nextId⟩) := by
  simp [Store.updateBook, hfind]
refine ⟨hvp, rfl, ?_, rfl⟩
simp [putBooksId, ht, ha, hvp, hup]

/-- C10 witness: setting published to 0 on the example store stores 0. -/
theorem updatePublishedZeroForwarded_witness :
    invalidUpdatePublished (some (.num 0)) = false ∧
    (updatePayload ⟨none, none, some (.num 0)⟩).published = some 0 ∧
    (putBooksId "1" ⟨none, none, some (.num 0)⟩ exampleStore).1 =
      ⟨200, .record (mergeBook ⟨1, "Dune", "Frank Herbert", 1965⟩
        (updatePayload ⟨none, none, some (.num 0)⟩))⟩ ∧
    (mergeBook ⟨1, "Dune", "Frank Herbert", 1965⟩
      (updatePayload ⟨none, none, some (.num 0)⟩)).published = 0 :=
updatePublishedZeroForwarded "1" none none exampleStore
  ⟨1, "Dune", "Frank Herbert", 1965⟩ (by decide) (by decide) (by decide)
